import Mathlib

/-!
Verification of the National Public Discourse Intelligence System frontend.

This file embeds, in Lean, the data model and operations of the React/TypeScript
dashboard: the REST client with mock-data fallback (`src/frontend/src/services/api.ts`),
the route guards (`src/frontend/src/App.tsx`), the hardcoded-credential login
(`AuthContext`), and the status-color / cooldown-display helpers of the Dashboard
and Alerts pages.  JavaScript numbers are modelled as rationals (`ℚ`), strings as
`String`, nullable values as `Option`, and a `fetch` call's observable outcome as
an inductive type (`FetchOutcome`): either the promise rejected, or a response
arrived with an HTTP status and a body whose JSON parse may itself fail.
-/

namespace NIS

/-- Observable outcome of one `fetch` call: the promise rejected with an error
message, or a response arrived with an HTTP `status` and a body whose
`response.json()` either parses to a value of type `α` or rejects with an error. -/
inductive FetchOutcome (α : Type) where
  | rejected (err : String)
  | responded (status : Nat) (body : Except String α)

/-- Models `Response.ok` of the fetch API: status in the range 200–299. -/
def respOk (status : Nat) : Bool := 200 ≤ status && status < 300

/-- Whether the outcome is a failure in the sense of `api.ts`: the fetch
rejected, or the response status is non-2xx (making the code throw
`HTTP <status>` into its own catch). -/
def fetchFailed {α : Type} : FetchOutcome α → Bool
  | .rejected _ => true
  | .responded status _ => !respOk status

/-- Embeds `fetchWithFallback` (api.ts lines 18–33): try the fetch; throw on a
non-ok status; return the parsed JSON body; on any exception (rejection, non-2xx,
or a JSON parse failure) return `fallbackData`. -/
def fetchWithFallback {α : Type} (o : FetchOutcome α) (fallbackData : α) : α :=
  match o with
  | .rejected _ => fallbackData
  | .responded status body =>
    if respOk status then
      match body with
      | .ok v => v
      | .error _ => fallbackData
    else fallbackData

/-- The alert status DTO returned by `GET /api/v1/alerts/status`
(api.ts lines 84–93). -/
structure AlertStatus where
  risk_score : ℚ
  risk_level : String
  alert_status : String
  auto_alerts_enabled : Bool
  threshold : ℚ
  last_alert_time : Option String
  can_send_alert : Bool
  time_until_next_alert : Option ℚ
deriving DecidableEq

/-- Embeds `api.getAlertStatus` (api.ts lines 84–110): on any failure return the
default safe status object. -/
def getAlertStatus (o : FetchOutcome AlertStatus) : AlertStatus :=
  match o with
  | .rejected _ =>
    { risk_score := 0, risk_level := "Low", alert_status := "Normal",
      auto_alerts_enabled := true, threshold := 70, last_alert_time := none,
      can_send_alert := true, time_until_next_alert := none }
  | .responded status body =>
    if respOk status then
      match body with
      | .ok v => v
      | .error _ =>
        { risk_score := 0, risk_level := "Low", alert_status := "Normal",
          auto_alerts_enabled := true, threshold := 70, last_alert_time := none,
          can_send_alert := true, time_until_next_alert := none }
    else
      { risk_score := 0, risk_level := "Low", alert_status := "Normal",
        auto_alerts_enabled := true, threshold := 70, last_alert_time := none,
        can_send_alert := true, time_until_next_alert := none }

/-- The alert configuration DTO returned by `GET /api/v1/alerts/config`
(api.ts lines 138–143). -/
structure AlertConfig where
  threshold : ℚ
  cooldown_minutes : ℚ
  email_configured : Bool
  recipients : List String
deriving DecidableEq

/-- Embeds `api.getAlertConfig` (api.ts lines 138–156): on any failure return
the default config. -/
def getAlertConfig (o : FetchOutcome AlertConfig) : AlertConfig :=
  match o with
  | .rejected _ =>
    { threshold := 70, cooldown_minutes := 15, email_configured := false,
      recipients := [] }
  | .responded status body =>
    if respOk status then
      match body with
      | .ok v => v
      | .error _ =>
        { threshold := 70, cooldown_minutes := 15, email_configured := false,
          recipients := [] }
    else
      { threshold := 70, cooldown_minutes := 15, email_configured := false,
        recipients := [] }

/-- Claim C1: for every dashboard endpoint and fallback value, if the fetch
rejects or the response is non-2xx, `fetchWithFallback` returns the supplied
fallback data verbatim, and if the fetch succeeds with a 2xx response (whose
body parses), it returns the parsed response body. -/
theorem fetchWithFallback_fallback_or_body {α : Type} (o : FetchOutcome α) (fb : α) :
    (fetchFailed o = true → fetchWithFallback o fb = fb) ∧
    (∀ status v, o = .responded status (.ok v) → respOk status = true →
      fetchWithFallback o fb = v) := by
  constructor
  · intro h
    cases o with
    | rejected e => rfl
    | responded status body =>
      simp only [fetchFailed, Bool.not_eq_true'] at h
      simp [fetchWithFallback, h]
  · rintro status v rfl hok
    simp [fetchWithFallback, hok]

/-- Concrete instantiation of `fetchWithFallback_fallback_or_body`: a rejected
fetch yields the fallback 7, and a 200 response with body 5 yields 5. -/
theorem fetchWithFallback_fallback_or_body_witness :
    fetchWithFallback (FetchOutcome.rejected "network down" : FetchOutcome Nat) 7 = 7 ∧
    fetchWithFallback (FetchOutcome.responded 200 (Except.ok 5) : FetchOutcome Nat) 7 = 5 :=
  ⟨(fetchWithFallback_fallback_or_body _ 7).1 rfl,
   (fetchWithFallback_fallback_or_body _ 7).2 200 5 rfl rfl⟩

/-- Claim C2: on every failure (rejection or non-2xx), `getAlertStatus` returns
the default safe status object (risk score 0, level Low, status Normal,
auto-alerts enabled, threshold 70, no last alert, can send, no cooldown), and
`getAlertConfig` returns the default config (threshold 70, cooldown 15 minutes,
email not configured, no recipients). -/
theorem alerts_default_on_failure (oS : FetchOutcome AlertStatus)
    (oC : FetchOutcome AlertConfig) :
    (fetchFailed oS = true →
      getAlertStatus oS =
        { risk_score := 0, risk_level := "Low", alert_status := "Normal",
          auto_alerts_enabled := true, threshold := 70, last_alert_time := none,
          can_send_alert := true, time_until_next_alert := none }) ∧
    (fetchFailed oC = true →
      getAlertConfig oC =
        { threshold := 70, cooldown_minutes := 15, email_configured := false,
          recipients := [] }) := by
  constructor
  · intro h
    cases oS with
    | rejected e => rfl
    | responded status body =>
      simp only [fetchFailed, Bool.not_eq_true'] at h
      simp [getAlertStatus, h]
  · intro h
    cases oC with
    | rejected e => rfl
    | responded status body =>
      simp only [fetchFailed, Bool.not_eq_true'] at h
      simp [getAlertConfig, h]

/-- Concrete instantiation of `alerts_default_on_failure` at a 503 response for
the status fetch and a rejected config fetch. -/
theorem alerts_default_on_failure_witness :
    getAlertStatus (FetchOutcome.responded 503 (Except.error "HTTP 503")) =
      { risk_score := 0, risk_level := "Low", alert_status := "Normal",
        auto_alerts_enabled := true, threshold := 70, last_alert_time := none,
        can_send_alert := true, time_until_next_alert := none } ∧
    getAlertConfig (FetchOutcome.rejected "network down") =
      { threshold := 70, cooldown_minutes := 15, email_configured := false,
        recipients := [] } :=
  ⟨(alerts_default_on_failure (FetchOutcome.responded 503 (Except.error "HTTP 503"))
      (FetchOutcome.rejected "network down")).1 rfl,
   (alerts_default_on_failure (FetchOutcome.responded 503 (Except.error "HTTP 503"))
      (FetchOutcome.rejected "network down")).2 rfl⟩

/-- Parsed JSON body of the `POST /api/v1/alerts/send-manual` response: the
success payload fields plus the optional `detail` field read on the error path. -/
structure ManualAlertBody where
  detail : Option String
  status : String
  message : String
  risk_score : ℚ
  timestamp : String
deriving DecidableEq

/-- Parsed JSON body of the `POST /api/v1/alerts/test-email` response. -/
structure TestEmailBody where
  detail : Option String
  status : String
  message : String
deriving DecidableEq

/-- JavaScript `d || dflt` on an optional string read off a JSON object:
`undefined` and the empty string are falsy, any other string is kept. -/
def jsOrElse (d : Option String) (dflt : String) : String :=
  match d with
  | some s => if s = "" then dflt else s
  | none => dflt

/-- The template string `HTTP <status>` thrown by api.ts on a non-ok response. -/
def httpMsg (status : Nat) : String := "HTTP " ++ toString status

/-- Embeds `api.sendManualAlert` (api.ts lines 112–123): on a non-ok response,
parse the error body and throw `error.detail || HTTP <status>`; rethrow every
other exception (the fetch rejection or a JSON parse failure); on a 2xx
response whose body parses, return it. -/
def sendManualAlert (o : FetchOutcome ManualAlertBody) : Except String ManualAlertBody :=
  match o with
  | .rejected err => .error err
  | .responded status body =>
    if respOk status then
      match body with
      | .ok v => .ok v
      | .error e => .error e
    else
      match body with
      | .ok v => .error (jsOrElse v.detail (httpMsg status))
      | .error e => .error e

/-- Embeds `api.testEmail` (api.ts lines 125–136), identical in shape to
`sendManualAlert`. -/
def testEmail (o : FetchOutcome TestEmailBody) : Except String TestEmailBody :=
  match o with
  | .rejected err => .error err
  | .responded status body =>
    if respOk status then
      match body with
      | .ok v => .ok v
      | .error e => .error e
    else
      match body with
      | .ok v => .error (jsOrElse v.detail (httpMsg status))
      | .error e => .error e

/-- The error message Claim C3 as stated predicts for a failed POST: the
response's `detail` whenever one is present, otherwise `HTTP <status>`. -/
def claimedFailureMessage (detail : Option String) (status : Nat) : String :=
  match detail with
  | some d => d
  | none => httpMsg status

/-- Claim C3, counterexample to the claim as stated: a 500 response whose body
carries the present-but-empty detail `""` makes `sendManualAlert` throw
`HTTP 500` (because `error.detail || ...` treats the empty string as falsy),
while the claim predicts the present detail message `""`. -/
theorem sendManualAlert_detail_claim_false :
    sendManualAlert (FetchOutcome.responded 500
        (Except.ok ⟨some "", "error", "failed", 0, "t0"⟩)) =
      Except.error "HTTP 500" ∧
    claimedFailureMessage (some "") 500 = "" ∧
    ("HTTP 500" : String) ≠ "" := by
  refine ⟨rfl, rfl, ?_⟩
  decide

/-- Claim C3 (amended): `sendManualAlert` and `testEmail` never substitute
fallback data — every failure surfaces as a thrown error.  A fetch rejection is
rethrown as is; a non-2xx response whose body parses throws the body's detail
message when it is present and non-empty, and `HTTP <status>` when the detail
is absent or empty; a body that fails to parse has its parse error rethrown. -/
theorem alert_post_failures_throw (o : FetchOutcome ManualAlertBody)
    (o2 : FetchOutcome TestEmailBody) :
    (fetchFailed o = true → ∃ e, sendManualAlert o = Except.error e) ∧
    (∀ err, o = .rejected err → sendManualAlert o = Except.error err) ∧
    (∀ status v d, o = .responded status (.ok v) → respOk status = false →
      v.detail = some d → d ≠ "" → sendManualAlert o = Except.error d) ∧
    (∀ status v, o = .responded status (.ok v) → respOk status = false →
      (v.detail = none ∨ v.detail = some "") →
      sendManualAlert o = Except.error (httpMsg status)) ∧
    (∀ status e, o = .responded status (.error e) → respOk status = false →
      sendManualAlert o = Except.error e) ∧
    (fetchFailed o2 = true → ∃ e, testEmail o2 = Except.error e) ∧
    (∀ err, o2 = .rejected err → testEmail o2 = Except.error err) ∧
    (∀ status v d, o2 = .responded status (.ok v) → respOk status = false →
      v.detail = some d → d ≠ "" → testEmail o2 = Except.error d) ∧
    (∀ status v, o2 = .responded status (.ok v) → respOk status = false →
      (v.detail = none ∨ v.detail = some "") →
      testEmail o2 = Except.error (httpMsg status)) ∧
    (∀ status e, o2 = .responded status (.error e) → respOk status = false →
      testEmail o2 = Except.error e) := by
  refine ⟨?_, ?_, ?_, ?_, ?_, ?_, ?_, ?_, ?_, ?_⟩
  · intro h
    cases o with
    | rejected e => exact ⟨e, rfl⟩
    | responded status body =>
      simp only [fetchFailed, Bool.not_eq_true'] at h
      cases body with
      | ok v => exact ⟨jsOrElse v.detail (httpMsg status), by simp [sendManualAlert, h]⟩
      | error e => exact ⟨e, by simp [sendManualAlert, h]⟩
  · rintro err rfl; rfl
  · rintro status v d rfl hok hd hne
    simp [sendManualAlert, hok, jsOrElse, hd, hne]
  · rintro status v rfl hok hd
    rcases hd with hd | hd <;> simp [sendManualAlert, hok, jsOrElse, hd]
  · rintro status e rfl hok
    simp [sendManualAlert, hok]
  · intro h
    cases o2 with
    | rejected e => exact ⟨e, rfl⟩
    | responded status body =>
      simp only [fetchFailed, Bool.not_eq_true'] at h
      cases body with
      | ok v => exact ⟨jsOrElse v.detail (httpMsg status), by simp [testEmail, h]⟩
      | error e => exact ⟨e, by simp [testEmail, h]⟩
  · rintro err rfl; rfl
  · rintro status v d rfl hok hd hne
    simp [testEmail, hok, jsOrElse, hd, hne]
  · rintro status v rfl hok hd
    rcases hd with hd | hd <;> simp [testEmail, hok, jsOrElse, hd]
  · rintro status e rfl hok
    simp [testEmail, hok]

/-- Concrete instantiation of `alert_post_failures_throw`: a 403 response with
detail `cooldown active` makes `sendManualAlert` throw that detail, and a 500
response with no detail makes `testEmail` throw `HTTP 500`. -/
theorem alert_post_failures_throw_witness :
    sendManualAlert (FetchOutcome.responded 403
        (Except.ok ⟨some "cooldown active", "error", "failed", 0, "t0"⟩)) =
      Except.error "cooldown active" ∧
    testEmail (FetchOutcome.responded 500 (Except.ok ⟨none, "error", "failed"⟩)) =
      Except.error "HTTP 500" :=
  ⟨(alert_post_failures_throw (FetchOutcome.responded 403
        (Except.ok ⟨some "cooldown active", "error", "failed", 0, "t0"⟩))
      (FetchOutcome.responded 500 (Except.ok ⟨none, "error", "failed"⟩))).2.2.1
      403 ⟨some "cooldown active", "error", "failed", 0, "t0"⟩ "cooldown active"
      rfl rfl rfl (by decide),
   (alert_post_failures_throw (FetchOutcome.responded 403
        (Except.ok ⟨some "cooldown active", "error", "failed", 0, "t0"⟩))
      (FetchOutcome.responded 500 (Except.ok ⟨none, "error", "failed"⟩))).2.2.2.2.2.2.2.2.1
      500 ⟨none, "error", "failed"⟩ rfl rfl (Or.inl rfl)⟩

/-- The three roles of `AuthContext`. -/
inductive UserRole where
  | admin
  | analyst
  | demo
deriving DecidableEq

/-- The session user record stored by `AuthContext`. -/
structure User where
  email : String
  role : UserRole
  name : String
deriving DecidableEq

/-- Embeds `isAuthenticated` of `AuthContext`: `!!user`. -/
def isAuthenticated (user : Option User) : Bool := user.isSome

/-- Embeds `isAdmin` of `AuthContext`: `user?.role === 'admin'`. -/
def isAdmin (user : Option User) : Bool :=
  match user with
  | some u => u.role = UserRole.admin
  | none => false

/-- Where the router sends a navigation: to `/login`, to `/`, or to the
requested page. -/
inductive RouteOutcome where
  | redirectLogin
  | redirectHome
  | render
deriving DecidableEq

/-- Embeds `ProtectedRoute` (App.tsx lines 12–20): unauthenticated sessions are
redirected to `/login`, all others render the children. -/
def ProtectedRoute (user : Option User) : RouteOutcome :=
  if !isAuthenticated user then .redirectLogin else .render

/-- Embeds `AdminRoute` (App.tsx lines 22–34): unauthenticated sessions go to
`/login`, authenticated non-admin sessions go to `/`, admins render the
children. -/
def AdminRoute (user : Option User) : RouteOutcome :=
  if !isAuthenticated user then .redirectLogin
  else if !isAdmin user then .redirectHome
  else .render

/-- Embeds the `/alerts` route of `App` (App.tsx lines 45–59): the route is
nested under the `ProtectedRoute` around `Layout`, and its element is the
Alerts page wrapped in `AdminRoute`. -/
def alertsRoute (user : Option User) : RouteOutcome :=
  match ProtectedRoute user with
  | .redirectLogin => .redirectLogin
  | _ => AdminRoute user

/-- Claim C4: navigating to `/alerts` renders the Alerts page exactly for an
authenticated admin session; an unauthenticated session is redirected to
`/login` and an authenticated non-admin session is redirected to `/`. -/
theorem alertsRoute_gates_admin (user : Option User) :
    (alertsRoute user = .render ↔ ∃ u, user = some u ∧ u.role = UserRole.admin) ∧
    (alertsRoute user = .redirectLogin ↔ user = none) ∧
    (alertsRoute user = .redirectHome ↔
      ∃ u, user = some u ∧ u.role ≠ UserRole.admin) := by
  cases user with
  | none =>
    refine ⟨?_, ?_, ?_⟩ <;>
      simp [alertsRoute, ProtectedRoute, AdminRoute, isAuthenticated, isAdmin]
  | some u =>
    obtain ⟨e, r, n⟩ := u
    cases r <;>
      simp [alertsRoute, ProtectedRoute, AdminRoute, isAuthenticated, isAdmin]

/-- JavaScript `String.prototype.toLowerCase` on one character, for the ASCII
range the credential emails live in: `A`–`Z` (codepoints 65–90) map down by 32,
everything else is unchanged. -/
def jsLowerChar (c : Char) : Char :=
  if 65 ≤ c.toNat ∧ c.toNat ≤ 90 then Char.ofNat (c.toNat + 32) else c

/-- JavaScript `email.toLowerCase()` as used by `AuthContext.login`. -/
def jsToLower (s : String) : String := ⟨s.data.map jsLowerChar⟩

theorem char_ofNat_toNat (n : Nat) (h1 : 97 ≤ n) (h2 : n ≤ 122) :
    (Char.ofNat n).toNat = n := by
  have hv : n.isValidChar := Or.inl (by omega)
  simp [Char.ofNat, Char.ofNatAux, hv, Char.toNat, UInt32.toNat, BitVec.toNat_ofNatLt]

theorem jsLowerChar_fix (c : Char) (h : ¬(65 ≤ c.toNat ∧ c.toNat ≤ 90)) :
    jsLowerChar c = c := by
  unfold jsLowerChar
  exact if_neg h

theorem jsLowerChar_idem (c : Char) : jsLowerChar (jsLowerChar c) = jsLowerChar c := by
  by_cases h : 65 ≤ c.toNat ∧ c.toNat ≤ 90
  · have ht : (jsLowerChar c).toNat = c.toNat + 32 := by
      unfold jsLowerChar
      rw [if_pos h]
      exact char_ofNat_toNat _ (by omega) (by omega)
    exact jsLowerChar_fix _ (by rw [ht]; omega)
  · rw [jsLowerChar_fix c h, jsLowerChar_fix c h]

theorem jsToLower_idem (s : String) : jsToLower (jsToLower s) = jsToLower s := by
  unfold jsToLower
  simp only [List.map_map]
  have hcomp : jsLowerChar ∘ jsLowerChar = jsLowerChar := funext jsLowerChar_idem
  rw [hcomp]

/-- One entry of the hardcoded credential table. -/
structure Credential where
  password : String
  role : UserRole
  name : String
deriving DecidableEq

/-- The hardcoded `CREDENTIALS` table of `AuthContext` (three entries). -/
def CREDENTIALS : List (String × Credential) :=
  [("admin@nis.gov.in", ⟨"admin123", .admin, "Admin User"⟩),
   ("analyst@nis.gov.in", ⟨"analyst123", .analyst, "Senior Analyst"⟩),
   ("demo@nis.gov.in", ⟨"demo123", .demo, "Demo User"⟩)]

/-- Embeds `AuthContext.login`: look the lowercased email up in `CREDENTIALS`;
if the entry is missing or its password differs, return false and leave the
session untouched; otherwise store a session user carrying the lowercased
email, the entry's role and name, and return true. -/
def login (session : Option User) (email password : String) : Bool × Option User :=
  match CREDENTIALS.lookup (jsToLower email) with
  | none => (false, session)
  | some c =>
    if c.password ≠ password then (false, session)
    else (true, some ⟨jsToLower email, c.role, c.name⟩)

/-- Claim C5: login succeeds exactly when the (lowercased) email matches one of
the three hardcoded table entries and the password equals that entry's password;
on success the session stores the entry's role, and on failure no session is
created (the session state is unchanged). -/
theorem login_iff_credentials (session : Option User) (email password : String) :
    ((login session email password).1 = true ↔
      ((jsToLower email = "admin@nis.gov.in" ∧ password = "admin123") ∨
       (jsToLower email = "analyst@nis.gov.in" ∧ password = "analyst123") ∨
       (jsToLower email = "demo@nis.gov.in" ∧ password = "demo123"))) ∧
    (jsToLower email = "admin@nis.gov.in" → password = "admin123" →
      (login session email password).2 =
        some ⟨"admin@nis.gov.in", UserRole.admin, "Admin User"⟩) ∧
    (jsToLower email = "analyst@nis.gov.in" → password = "analyst123" →
      (login session email password).2 =
        some ⟨"analyst@nis.gov.in", UserRole.analyst, "Senior Analyst"⟩) ∧
    (jsToLower email = "demo@nis.gov.in" → password = "demo123" →
      (login session email password).2 =
        some ⟨"demo@nis.gov.in", UserRole.demo, "Demo User"⟩) ∧
    ((login session email password).1 = false →
      (login session email password).2 = session) := by
  unfold login
  by_cases ha : jsToLower email = "admin@nis.gov.in"
  · rw [ha]
    by_cases hp : password = "admin123" <;>
      simp [CREDENTIALS, List.lookup, hp, Ne, eq_comm]
  · by_cases hb : jsToLower email = "analyst@nis.gov.in"
    · rw [hb]
      by_cases hp : password = "analyst123" <;>
        simp [CREDENTIALS, List.lookup, hb, ha, hp, Ne, eq_comm]
    · by_cases hc : jsToLower email = "demo@nis.gov.in"
      · rw [hc]
        by_cases hp : password = "demo123" <;>
          simp [CREDENTIALS, List.lookup, hc, ha, hb, hp, Ne, eq_comm]
      · have ha2 : (jsToLower email == "admin@nis.gov.in") = false :=
          beq_eq_false_iff_ne.mpr ha
        have hb2 : (jsToLower email == "analyst@nis.gov.in") = false :=
          beq_eq_false_iff_ne.mpr hb
        have hc2 : (jsToLower email == "demo@nis.gov.in") = false :=
          beq_eq_false_iff_ne.mpr hc
        have hnone : CREDENTIALS.lookup (jsToLower email) = none := by
          simp [CREDENTIALS, List.lookup, ha2, hb2, hc2]
        simp [hnone, ha, hb, hc]

/-- Concrete instantiation of `login_iff_credentials`: the admin credentials
log in and store the admin session; a wrong password fails and leaves the
(empty) session unchanged. -/
theorem login_iff_credentials_witness :
    (login none "admin@nis.gov.in" "admin123").2 =
      some ⟨"admin@nis.gov.in", UserRole.admin, "Admin User"⟩ ∧
    (login none "admin@nis.gov.in" "wrong").2 = none :=
  ⟨(login_iff_credentials none "admin@nis.gov.in" "admin123").2.1 (by decide) rfl,
   (login_iff_credentials none "admin@nis.gov.in" "wrong").2.2.2.2 (by decide)⟩

/-- Claim C9: authentication is case-insensitive in the email (logging in with
the email lowercased gives the same result, session included) but
case-sensitive in the password, and the stored session user always carries the
lowercased email. -/
theorem login_email_case_insensitive (session : Option User) (email password : String) :
    login session email password = login session (jsToLower email) password ∧
    (∀ u, login session email password = (true, some u) → u.email = jsToLower email) ∧
    (login session "Admin@NIS.gov.in" "admin123").1 = true ∧
    (login session "admin@nis.gov.in" "ADMIN123").1 = false := by
  refine ⟨?_, ?_, ?_, ?_⟩
  · unfold login
    rw [jsToLower_idem]
  · intro u h
    unfold login at h
    rcases hl : CREDENTIALS.lookup (jsToLower email) with _ | c
    · rw [hl] at h
      simp at h
    · rw [hl] at h
      dsimp only at h
      by_cases hp : c.password ≠ password
      · rw [if_pos hp] at h
        simp at h
      · rw [if_neg hp] at h
        simp only [Prod.mk.injEq, Option.some.injEq] at h
        rw [← h.2]
  · have hlow : jsToLower "Admin@NIS.gov.in" = "admin@nis.gov.in" := by decide
    unfold login
    rw [hlow]
    simp [CREDENTIALS, List.lookup]
  · have hlow : jsToLower "admin@nis.gov.in" = "admin@nis.gov.in" := by decide
    unfold login
    rw [hlow]
    simp [CREDENTIALS, List.lookup]

/-- Concrete instantiation of `login_email_case_insensitive`: a mixed-case
admin email logs in the same as its lowercased form, and the stored session
email is the lowercased one. -/
theorem login_email_case_insensitive_witness :
    login (none : Option User) "Admin@NIS.gov.in" "admin123" =
      login none (jsToLower "Admin@NIS.gov.in") "admin123" ∧
    (⟨"admin@nis.gov.in", UserRole.admin, "Admin User"⟩ : User).email =
      jsToLower "Admin@NIS.gov.in" :=
  ⟨(login_email_case_insensitive none "Admin@NIS.gov.in" "admin123").1,
   (login_email_case_insensitive none "Admin@NIS.gov.in" "admin123").2.1
     ⟨"admin@nis.gov.in", UserRole.admin, "Admin User"⟩ (by decide)⟩

/-- The three status-color classes of `MetricCard`. -/
inductive Status3 where
  | success
  | warning
  | danger
deriving DecidableEq

/-- Embeds `getTrustStatus` (Dashboard page, lines 132–136). -/
def getTrustStatus (value : ℚ) : Status3 :=
  if value ≥ 70 then .success
  else if value ≥ 50 then .warning
  else .danger

/-- Embeds `getRiskStatus` (Dashboard page, lines 122–130): a switch on the
risk-level string with `High` falling through to `Critical`, defaulting to
success. -/
def getRiskStatus (level : String) : Status3 :=
  match level with
  | "Low" => .success
  | "Moderate" => .warning
  | "High" => .danger
  | "Critical" => .danger
  | _ => .success

/-- Embeds the inline volatility status expression of the Dashboard's
volatility `MetricCard` (lines 196–203):
`value < 40 ? success : value < 60 ? warning : danger`. -/
def volatilityStatus (value : ℚ) : Status3 :=
  if value < 40 then .success
  else if value < 60 then .warning
  else .danger

/-- Claim C6: trust index maps to success iff the value is at least 70, warning
iff it is in [50, 70), danger iff below 50; risk level Low maps to success,
Moderate to warning, High and Critical to danger; volatility maps to success
iff below 40, warning iff in [40, 60), danger iff at least 60. -/
theorem status_color_thresholds (v : ℚ) :
    (getTrustStatus v = .success ↔ 70 ≤ v) ∧
    (getTrustStatus v = .warning ↔ 50 ≤ v ∧ v < 70) ∧
    (getTrustStatus v = .danger ↔ v < 50) ∧
    getRiskStatus "Low" = .success ∧
    getRiskStatus "Moderate" = .warning ∧
    getRiskStatus "High" = .danger ∧
    getRiskStatus "Critical" = .danger ∧
    (volatilityStatus v = .success ↔ v < 40) ∧
    (volatilityStatus v = .warning ↔ 40 ≤ v ∧ v < 60) ∧
    (volatilityStatus v = .danger ↔ 60 ≤ v) := by
  refine ⟨?_, ?_, ?_, rfl, rfl, rfl, rfl, ?_, ?_, ?_⟩ <;>
    simp only [getTrustStatus, volatilityStatus] <;>
    split_ifs <;>
    simp_all <;>
    linarith

/-- The floor `⌊⌋` on `ℚ` agrees with the executable `Rat.floor` the embedding
below computes with. -/
theorem intFloor_eq_ratFloor (q : ℚ) : ⌊q⌋ = q.floor := by
  rw [Rat.floor_def, Rat.floor_def']

/-- JavaScript truncating conversion underlying the `%` operator: round a
quotient toward zero. -/
def jsTruncQ (q : ℚ) : Int := if q < 0 then -(-q).floor else q.floor

/-- JavaScript remainder `a % b`: `a - b * trunc(a / b)` (same sign as `a`). -/
def jsRem (a b : ℚ) : ℚ := a - b * jsTruncQ (a / b)

/-- Embeds `formatTimeRemaining` (Alerts page, lines 347–352): a falsy
argument (`null` or `0`) displays `Ready`; otherwise the string is
`Math.floor(seconds / 60)` minutes and `Math.floor(seconds % 60)` seconds. -/
def formatTimeRemaining (seconds : Option ℚ) : String :=
  match seconds with
  | none => "Ready"
  | some q =>
    if q = 0 then "Ready"
    else
      toString (q / 60).floor ++ "m " ++ toString (jsRem q 60).floor ++ "s"

/-- Claim C7, counterexample to the claim as stated: at the seconds value 0 the
claim predicts the string `0m 0s` (floor(0/60) minutes, floor(0 mod 60)
seconds) but `formatTimeRemaining` returns `Ready`, because `!seconds` treats
0 as falsy. -/
theorem formatTimeRemaining_claim_false_at_zero :
    formatTimeRemaining (some 0) = "Ready" ∧
    toString ⌊(0 : ℚ) / 60⌋ ++ "m " ++ toString ⌊jsRem 0 60⌋ ++ "s" = "0m 0s" ∧
    ("Ready" : String) ≠ "0m 0s" := by
  refine ⟨by decide, ?_, by decide⟩
  have h1 : ⌊(0 : ℚ) / 60⌋ = 0 := by norm_num
  have h2 : jsRem 0 60 = 0 := by
    unfold jsRem jsTruncQ
    rw [← intFloor_eq_ratFloor]
    norm_num
    decide
  rw [h1, h2, Int.floor_zero]
  decide

/-- Claim C7 (amended): for every positive seconds value `q`,
`formatTimeRemaining` returns the string composed of `⌊q / 60⌋` minutes and
`⌊q mod 60⌋` seconds (for positive `q` the JavaScript remainder `q % 60`
equals `q - 60 * ⌊q / 60⌋`, the mathematical `q mod 60`); the seconds values
0 and null instead display `Ready`. -/
theorem formatTimeRemaining_positive (q : ℚ) (h : 0 < q) :
    formatTimeRemaining (some q) =
      toString ⌊q / 60⌋ ++ "m " ++ toString ⌊q - 60 * (⌊q / 60⌋ : ℚ)⌋ ++ "s" := by
  have hne : q ≠ 0 := ne_of_gt h
  have htr : jsTruncQ (q / 60) = (q / 60).floor := by
    unfold jsTruncQ
    rw [if_neg (not_lt.mpr (div_nonneg h.le (by norm_num)))]
  simp only [formatTimeRemaining]
  rw [if_neg hne]
  unfold jsRem
  simp only [intFloor_eq_ratFloor]
  rw [htr]

/-- Concrete instantiation of `formatTimeRemaining_positive`: 90 seconds
displays as `1m 30s`. -/
theorem formatTimeRemaining_positive_witness :
    (0 : ℚ) < 90 ∧ formatTimeRemaining (some 90) = "1m 30s" := by
  refine ⟨by norm_num, ?_⟩
  rw [formatTimeRemaining_positive 90 (by norm_num)]
  have h1 : ⌊(90 : ℚ) / 60⌋ = 1 := by norm_num
  rw [h1]
  have h2 : ⌊(90 : ℚ) - 60 * ((1 : ℤ) : ℚ)⌋ = 30 := by norm_num
  rw [h2]
  decide

/-- Claim C10: `formatTimeRemaining` returns `Ready` both when the
remaining-seconds argument is null and when it is exactly 0. -/
theorem formatTimeRemaining_ready_on_null_or_zero :
    formatTimeRemaining none = "Ready" ∧ formatTimeRemaining (some 0) = "Ready" :=
  ⟨rfl, by decide⟩

/-- The observable trace of one call to the fetch wrapper: the returned value
and how many HTTP requests were issued. -/
structure FetchTrace (α : Type) where
  result : α
  requests : Nat
deriving DecidableEq

/-- Instrumented embedding of `fetchWithFallback` (api.ts lines 18-33) against
an environment assigning an outcome to each successive request index.  The
body contains a single `fetch` call and no loop or retry, so the run consumes
only the outcome at index 0 and issues exactly one request. -/
def fetchWithFallbackRun {α : Type} (env : Nat → FetchOutcome α)
    (fallbackData : α) : FetchTrace α :=
  { result := fetchWithFallback (env 0) fallbackData, requests := 1 }

/-- Claim C8: a single call to the fetch wrapper performs exactly one fetch
attempt and its result depends only on that first attempt's outcome — after a
rejection or non-2xx response it falls back immediately with no second
request. -/
theorem fetchWithFallback_single_attempt {α : Type} (env env2 : Nat → FetchOutcome α)
    (fb : α) :
    (fetchWithFallbackRun env fb).requests = 1 ∧
    (fetchWithFallbackRun env fb).result = fetchWithFallback (env 0) fb ∧
    (env 0 = env2 0 → fetchWithFallbackRun env fb = fetchWithFallbackRun env2 fb) := by
  refine ⟨rfl, rfl, ?_⟩
  intro h
  unfold fetchWithFallbackRun
  rw [h]

/-- Concrete instantiation of `fetchWithFallback_single_attempt`: with a
rejecting first request, the run issues one request, and outcomes of any later
request index never change its result. -/
theorem fetchWithFallback_single_attempt_witness :
    (fetchWithFallbackRun (fun _ => FetchOutcome.rejected "network down") (7 : Nat)).requests
      = 1 ∧
    fetchWithFallbackRun (fun _ => FetchOutcome.rejected "network down") (7 : Nat) =
      fetchWithFallbackRun
        (fun n => if n = 0 then FetchOutcome.rejected "network down"
          else FetchOutcome.responded 200 (Except.ok 9)) 7 :=
  ⟨(fetchWithFallback_single_attempt (fun _ => FetchOutcome.rejected "network down")
      (fun _ => FetchOutcome.rejected "network down") 7).1,
   (fetchWithFallback_single_attempt (fun _ => FetchOutcome.rejected "network down")
      (fun n => if n = 0 then FetchOutcome.rejected "network down"
        else FetchOutcome.responded 200 (Except.ok 9)) 7).2.2 rfl⟩

end NIS
